import Mathlib

/-!
Verification development for the RoboticsApplicationManager lifecycle
orchestrator (src/manager/manager/manager.py and
src/manager/libs/applications/compatibility/server.py).

The Python `Manager` class drives a session lifecycle with the
`transitions` FSM library.  We shallow-embed here:

* the six lifecycle states and eleven triggers (manager.py lines 39-123);
* the firing semantics of the machine as configured in `Manager.__init__`
  (lines 125-134): for a fired trigger the machine looks up a transition
  whose trigger matches and whose source contains the current state
  (a `"*"` source matches every state); if none exists a MachineError is
  raised and the state is untouched; otherwise the `before` action runs,
  an exception raised by it aborts the transition with the state
  untouched, and otherwise the machine commits the destination state and
  then runs `after_state_change` (= `Manager.state_change`, lines
  156-159) which emits a state-changed notification.  In the
  `transitions` library only `"="` is the same-state destination
  wildcard; `"*"` is a wildcard for sources only, so a destination `"*"`
  is an unregistered state name and committing it raises
  `ValueError("* is not a registered state.")` from `Machine.set_state`,
  leaving the state attribute of the model unchanged.  We embed that
  destination as `Dest.star`;
* each `on_*` action as a function from the session resources and the
  outcomes of the external collaborators (validator, linter, process
  and simulation services, attached consoles) to updated resources, a
  trace of observable effects, and an optional raised exception.
  Python strings are embedded as `String`, and as `List Char` inside
  the code-instrumentation transform;
* the dispatcher step (`process_message`, lines 493-500, and the error
  wrapping of the `start` loop, lines 590-606).

Machine integers, real time, the filesystem and sockets are abstracted:
external calls are modelled by their outcome knobs in `Ext` and by the
effects they emit.
-/

namespace RAM

/-- Lifecycle states, manager.py lines 39-46. -/
inductive State
  | idle
  | connected
  | world_ready
  | visualization_ready
  | application_running
  | paused
deriving DecidableEq, Repr, Fintype

/-- Trigger names of the eleven declared transitions, manager.py lines 48-123. -/
inductive Trigger
  | connect
  | launch_world
  | prepare_visualization
  | run_application
  | pause
  | resume
  | terminate_application
  | terminate_visualization
  | terminate_universe
  | disconnect
  | style_check
deriving DecidableEq, Repr, Fintype

/-- Source field of a transition entry: an explicit list of states, or the
`"*"` wildcard that the `transitions` library expands to every state. -/
inductive Src
  | states (ss : List State)
  | wildcard
deriving DecidableEq, Repr

/-- Destination field of a transition entry as written in the source table:
either a registered state name, or the literal `"*"` (used by the
`style_check` entry, line 120), which is not a registered state and which the
`transitions` library does not treat as a destination wildcard. -/
inductive Dest
  | to (s : State)
  | star
deriving DecidableEq, Repr

/-- One entry of `Manager.transitions`. -/
structure TransDef where
  trigger : Trigger
  src : Src
  dest : Dest
deriving DecidableEq, Repr

/-- The transition table, manager.py lines 48-123, in source order. -/
def transitions : List TransDef :=
  [ ⟨Trigger.connect, Src.states [State.idle], Dest.to State.connected⟩,
    ⟨Trigger.launch_world, Src.states [State.connected], Dest.to State.world_ready⟩,
    ⟨Trigger.prepare_visualization, Src.states [State.world_ready], Dest.to State.visualization_ready⟩,
    ⟨Trigger.run_application, Src.states [State.visualization_ready, State.paused], Dest.to State.application_running⟩,
    ⟨Trigger.pause, Src.states [State.application_running], Dest.to State.paused⟩,
    ⟨Trigger.resume, Src.states [State.paused], Dest.to State.application_running⟩,
    ⟨Trigger.terminate_application, Src.states [State.visualization_ready, State.application_running, State.paused], Dest.to State.visualization_ready⟩,
    ⟨Trigger.terminate_visualization, Src.states [State.visualization_ready], Dest.to State.world_ready⟩,
    ⟨Trigger.terminate_universe, Src.states [State.world_ready], Dest.to State.connected⟩,
    ⟨Trigger.disconnect, Src.wildcard, Dest.to State.idle⟩,
    ⟨Trigger.style_check, Src.wildcard, Dest.star⟩ ]

/-- Whether a source field admits a given current state. -/
def srcMatches : Src → State → Bool
  | Src.states ss, s => ss.contains s
  | Src.wildcard, _ => true

/-- Declared source of each trigger, read off the table (for stating the
claims; `fire` itself consults the table). -/
def declaredSrc : Trigger → Src
  | Trigger.connect => Src.states [State.idle]
  | Trigger.launch_world => Src.states [State.connected]
  | Trigger.prepare_visualization => Src.states [State.world_ready]
  | Trigger.run_application => Src.states [State.visualization_ready, State.paused]
  | Trigger.pause => Src.states [State.application_running]
  | Trigger.resume => Src.states [State.paused]
  | Trigger.terminate_application => Src.states [State.visualization_ready, State.application_running, State.paused]
  | Trigger.terminate_visualization => Src.states [State.visualization_ready]
  | Trigger.terminate_universe => Src.states [State.world_ready]
  | Trigger.disconnect => Src.wildcard
  | Trigger.style_check => Src.wildcard

/-- Declared destination of each of the ten ordinary triggers (section 4.1
of the spec); `style_check` is mapped arbitrarily, its table entry carries
`Dest.star` and never commits. -/
def destOf : Trigger → State
  | Trigger.connect => State.connected
  | Trigger.launch_world => State.world_ready
  | Trigger.prepare_visualization => State.visualization_ready
  | Trigger.run_application => State.application_running
  | Trigger.pause => State.paused
  | Trigger.resume => State.application_running
  | Trigger.terminate_application => State.visualization_ready
  | Trigger.terminate_visualization => State.world_ready
  | Trigger.terminate_universe => State.connected
  | Trigger.disconnect => State.idle
  | Trigger.style_check => State.idle

/-- Destination field of the table entry of each trigger. -/
def destD : Trigger → Dest
  | Trigger.style_check => Dest.star
  | t => Dest.to (destOf t)

/-- Python exceptions raised by the embedded code paths. -/
inductive PyErr
  | machineError (t : Trigger) (s : State)
  | valueErrorStar
  | exception (msg : String)
  | unboundLocalError
  | attributeError
  | extFailure (op : String)
deriving DecidableEq, Repr

/-- Name of a state as it appears in the Python source. -/
def stateName : State → String
  | State.idle => "idle"
  | State.connected => "connected"
  | State.world_ready => "world_ready"
  | State.visualization_ready => "visualization_ready"
  | State.application_running => "application_running"
  | State.paused => "paused"

/-- Name of a trigger as it appears in the Python source. -/
def triggerName : Trigger → String
  | Trigger.connect => "connect"
  | Trigger.launch_world => "launch_world"
  | Trigger.prepare_visualization => "prepare_visualization"
  | Trigger.run_application => "run_application"
  | Trigger.pause => "pause"
  | Trigger.resume => "resume"
  | Trigger.terminate_application => "terminate_application"
  | Trigger.terminate_visualization => "terminate_visualization"
  | Trigger.terminate_universe => "terminate_universe"
  | Trigger.disconnect => "disconnect"
  | Trigger.style_check => "style_check"

/-- Text of an exception, `str(e)` as used by the start loop when building
the error reply (manager.py line 600).  For `Exception(errors)` this is the
errors text; the other messages are abbreviated. -/
def errTxt : PyErr → String
  | PyErr.machineError t s =>
      "MachineError: cannot trigger " ++ triggerName t ++ " from state " ++ stateName s
  | PyErr.valueErrorStar => "ValueError: * is not a registered state."
  | PyErr.exception msg => msg
  | PyErr.unboundLocalError => "UnboundLocalError: cfg referenced before assignment"
  | PyErr.attributeError => "AttributeError: NoneType"
  | PyErr.extFailure op => op

/-- Observable side effects of the orchestrator, in emission order. -/
inductive Effect
  | sendIntrospection
  | worldRun
  | visRun
  | guiServerStart
  | guiStop
  | guiSend
  | consoleWrite (path : String) (text : String)
  | writeCodeFile (content : List Char)
  | spawnApp
  | stopApp
  | visTerminate
  | worldTerminate
  | consumerStop
  | suspendApp
  | resumeApp
  | pauseSim
  | unpauseSim
  | resetSim
  | execRestart
  | stateChanged (s : State)
  | sendResponse (id : String) (s : State)
  | sendError (id : String) (msg : String)
deriving DecidableEq, Repr

/-- Session resource handles owned by the Manager (manager.py lines
138-142), abstracted to whether each handle is populated.  The consumer
reference is never rebound to None, so it is not tracked. -/
structure Res where
  world_launcher : Bool
  visualization_launcher : Bool
  application_process : Bool
  gui_server : Bool
deriving DecidableEq, Repr

/-- Resource state right after `Manager.__init__` (all handles None). -/
def initRes : Res := ⟨false, false, false, false⟩

/-- The fields of an inbound command payload that the actions inspect.
`isBtStudio` is whether the payload carries `type == "bt-studio"` (a
missing `type` key raises a KeyError that the source catches and ignores,
so it behaves as `false`). -/
structure MsgData where
  isBtStudio : Bool
  code : String
  visualization : String
deriving DecidableEq, Repr

/-- Outcomes of the external collaborator calls an action can make: the
configuration validator, the linter, the attached operator consoles, and
whether each process/simulation operation raises. -/
structure Ext where
  validateOk : Bool
  lintResult : String
  lintStyleResult : String
  consoles : List String
  consumerStopFails : Bool
  stopAppFails : Bool
  visTerminateFails : Bool
  worldTerminateFails : Bool
  pauseSimFails : Bool
  resetSimFails : Bool
  unpauseSimFails : Bool
  suspendFails : Bool
  resumeFails : Bool
  worldRunFails : Bool
  visRunFails : Bool
deriving DecidableEq, Repr

/-- Result of running a transition action (`before` callback): the updated
resources, the effects emitted up to return or raise, the exception it
raised (if any), and whether it replaced the process image via `os.execl`
(only `on_disconnect`, which never returns). -/
structure ActOut where
  res : Res
  effects : List Effect
  err : Option PyErr
  execs : Bool
deriving DecidableEq, Repr

/-- Whitespace characters matched by the regex class `\s` (ASCII range,
which covers the source texts involved). -/
def isPySpace (c : Char) : Bool :=
  c = ' ' || c = '\t' || c = '\n' || c = '\r' || c = '\x0b' || c = '\x0c'

/-- Token of one alternation branch of the loop-header regex of
`add_frequency_control` (manager.py line 272): a literal character, a
greedy `\s*`, or the class `[^ ]` (any character other than a space). -/
inductive Tok
  | lit (c : Char)
  | ws
  | nonspace
deriving DecidableEq, Repr

/-- Match a token list at the start of a string, returning the unmatched
remainder.  Every `\s*` in the pattern is followed by a non-whitespace
literal, so greedy matching without backtracking is exact. -/
def matchToks : List Tok → List Char → Option (List Char)
  | [], s => some s
  | Tok.lit _ :: _, [] => none
  | Tok.lit c :: ts, c1 :: s1 => if c1 = c then matchToks ts s1 else none
  | Tok.nonspace :: _, [] => none
  | Tok.nonspace :: ts, c1 :: s1 => if c1 = ' ' then none else matchToks ts s1
  | Tok.ws :: ts, s => matchToks ts (s.dropWhile isPySpace)

/-- Branch for the spelling `[^ ]while\s*\(\s*True\s*\)\s*:`. -/
def branchParenTrue : List Tok :=
  [Tok.nonspace, Tok.lit 'w', Tok.lit 'h', Tok.lit 'i', Tok.lit 'l', Tok.lit 'e',
   Tok.ws, Tok.lit '(', Tok.ws, Tok.lit 'T', Tok.lit 'r', Tok.lit 'u', Tok.lit 'e',
   Tok.ws, Tok.lit ')', Tok.ws, Tok.lit ':']

/-- Branch for the spelling `[^ ]while\s*True\s*:`. -/
def branchTrue : List Tok :=
  [Tok.nonspace, Tok.lit 'w', Tok.lit 'h', Tok.lit 'i', Tok.lit 'l', Tok.lit 'e',
   Tok.ws, Tok.lit 'T', Tok.lit 'r', Tok.lit 'u', Tok.lit 'e', Tok.ws, Tok.lit ':']

/-- Branch for the spelling `[^ ]while\s*1\s*:`. -/
def branchOne : List Tok :=
  [Tok.nonspace, Tok.lit 'w', Tok.lit 'h', Tok.lit 'i', Tok.lit 'l', Tok.lit 'e',
   Tok.ws, Tok.lit '1', Tok.ws, Tok.lit ':']

/-- Branch for the spelling `[^ ]while\s*\(\s*1\s*\)\s*:`. -/
def branchParenOne : List Tok :=
  [Tok.nonspace, Tok.lit 'w', Tok.lit 'h', Tok.lit 'i', Tok.lit 'l', Tok.lit 'e',
   Tok.ws, Tok.lit '(', Tok.ws, Tok.lit '1', Tok.ws, Tok.lit ')', Tok.ws, Tok.lit ':']

/-- The four alternation branches, in the order they appear in the pattern
on manager.py line 272. -/
def loopBranches : List (List Tok) :=
  [branchParenTrue, branchTrue, branchOne, branchParenOne]

/-- Length of the match of the alternation at the start of `s`, if any,
trying the branches in pattern order as `re` does. -/
def matchLen (s : List Char) : Option Nat :=
  loopBranches.findSome? (fun b => (matchToks b s).map (fun rem => s.length - rem.length))

/-- Leftmost search of the alternation, as `re.search`: try each start
position from the left, and at each position the branches in order.
Returns the `(start, end)` span of the first match. -/
def searchFrom : List Char → Nat → Option (Nat × Nat)
  | [], _ => none
  | c :: rest, i =>
      match matchLen (c :: rest) with
      | some n => some (i, i + n)
      | none => searchFrom rest (i + 1)

/-- The `frequency_control_code_imports` fragment, manager.py lines 265-269. -/
def importsFrag : List Char :=
  "\nimport time\nfrom datetime import datetime\nideal_cycle = 20\n".data

/-- The `frequency_control_code_pre` fragment, manager.py lines 275-277
(a newline, the timestamp-capture line, a newline and twelve spaces). -/
def preFrag : List Char :=
  "\n    start_time_internal_freq_control = datetime.now()\n            ".data

/-- The `frequency_control_code_post` fragment, manager.py lines 283-290. -/
def postFrag : List Char :=
  "\n    finish_time_internal_freq_control = datetime.now()\n    dt = finish_time_internal_freq_control - start_time_internal_freq_control\n    ms = (dt.days * 24 * 60 * 60 + dt.seconds) * 1000 + dt.microseconds / 1000.0\n\n    if (ms < ideal_cycle):\n        time.sleep((ideal_cycle - ms) / 1000.0)\n".data

/-- The `Manager.add_frequency_control` transform, manager.py lines
264-292: prepend the imports fragment, search the combined text for the
first infinite-loop header, insert the timestamp-capture fragment right
after the match end and append the timing/sleep fragment.  When the search
finds no match, the source calls `.end()` on `None` and raises an
AttributeError. -/
def add_frequency_control (code : List Char) : Except PyErr (List Char) :=
  let c := importsFrag ++ code
  match searchFrom c 0 with
  | none => Except.error PyErr.attributeError
  | some (_, e) =>
      Except.ok (c.take e ++ preFrag ++ c.drop e ++ postFrag)

/-- The two backwards-compatibility substitutions applied to inline code
before linting (manager.py lines 324-326 and 382-384). -/
def backCompat (code : String) : String :=
  (code.replace "from GUI import GUI" "import GUI").replace "from HAL import HAL" "import HAL"

/-- Action of `connect` (manager.py lines 166-188): send the introspection
message. -/
def on_connect (_x : Ext) (r : Res) (_d : MsgData) : ActOut :=
  ⟨r, [Effect.sendIntrospection], none, false⟩

/-- Action of `launch_world` (manager.py lines 190-226).  The validator
call sits in a try that catches ValueError and only logs it; the code then
unconditionally builds `LauncherWorld(**cfg.model_dump())` outside the try,
so when validation failed the local `cfg` was never bound and evaluating
`cfg.model_dump()` raises an UnboundLocalError before any launcher is
constructed.  On successful validation the launcher handle is assigned and
its `run()` is called (which may itself raise). -/
def on_launch_world (x : Ext) (r : Res) (_d : MsgData) : ActOut :=
  if x.validateOk then
    if x.worldRunFails then
      ⟨{ r with world_launcher := true }, [Effect.worldRun], some (PyErr.extFailure "world_launcher.run"), false⟩
    else
      ⟨{ r with world_launcher := true }, [Effect.worldRun], none, false⟩
  else
    ⟨r, [], some PyErr.unboundLocalError, false⟩

/-- Action of `prepare_visualization` (manager.py lines 248-262): build and
run the visualization launcher; for the `gazebo_rae` kind also start the
GUI telemetry server on port 2303. -/
def on_prepare_visualization (x : Ext) (r : Res) (d : MsgData) : ActOut :=
  if x.visRunFails then
    ⟨{ r with visualization_launcher := true }, [Effect.visRun], some (PyErr.extFailure "visualization_launcher.run"), false⟩
  else if d.visualization = "gazebo_rae" then
    ⟨{ r with visualization_launcher := true, gui_server := true }, [Effect.visRun, Effect.guiServerStart], none, false⟩
  else
    ⟨{ r with visualization_launcher := true }, [Effect.visRun], none, false⟩

/-- The bt-studio branch of `run_application` (manager.py lines 415-437):
extract the packaged app and spawn its entry point, then unpause the
simulation; no lint and no instrumentation run. -/
def run_bt_studio_application (x : Ext) (r : Res) (_d : MsgData) : ActOut :=
  if x.unpauseSimFails then
    ⟨{ r with application_process := true }, [Effect.spawnApp, Effect.unpauseSim], some (PyErr.extFailure "unpause_sim"), false⟩
  else
    ⟨{ r with application_process := true }, [Effect.spawnApp, Effect.unpauseSim], none, false⟩

/-- Action of `run_application` (manager.py lines 341-413).  Inline code is
made backwards compatible and linted; when the linter reports errors the
text is written to every attached operator console and an
`Exception(errors)` is raised, with no process spawned; when the linter
passes, the code is instrumented (which raises when no loop header is
found), written out, the process spawned and the simulation unpaused. -/
def on_run_application (x : Ext) (r : Res) (d : MsgData) : ActOut :=
  if d.isBtStudio then run_bt_studio_application x r d
  else
    let code := backCompat d.code
    if x.lintResult = "" then
      match add_frequency_control code.data with
      | Except.error e => ⟨r, [], some e, false⟩
      | Except.ok instrumented =>
          if x.unpauseSimFails then
            ⟨{ r with application_process := true },
             [Effect.writeCodeFile instrumented, Effect.spawnApp, Effect.unpauseSim],
             some (PyErr.extFailure "unpause_sim"), false⟩
          else
            ⟨{ r with application_process := true },
             [Effect.writeCodeFile instrumented, Effect.spawnApp, Effect.unpauseSim],
             none, false⟩
    else
      ⟨r, x.consoles.map (fun p => Effect.consoleWrite p (x.lintResult ++ "\n\n")),
       some (PyErr.exception x.lintResult), false⟩

/-- Action of `pause` (manager.py lines 502-505): OS-level suspend of the
application process, then the simulation pause RPC.  With no application
process, `self.application_process.pid` raises an AttributeError. -/
def on_pause (x : Ext) (r : Res) (_d : MsgData) : ActOut :=
  if r.application_process then
    if x.suspendFails then ⟨r, [Effect.suspendApp], some (PyErr.extFailure "suspend"), false⟩
    else if x.pauseSimFails then ⟨r, [Effect.suspendApp, Effect.pauseSim], some (PyErr.extFailure "pause_sim"), false⟩
    else ⟨r, [Effect.suspendApp, Effect.pauseSim], none, false⟩
  else ⟨r, [], some PyErr.attributeError, false⟩

/-- Action of `resume` (manager.py lines 507-510), mirror of `on_pause`. -/
def on_resume (x : Ext) (r : Res) (_d : MsgData) : ActOut :=
  if r.application_process then
    if x.resumeFails then ⟨r, [Effect.resumeApp], some (PyErr.extFailure "resume"), false⟩
    else if x.unpauseSimFails then ⟨r, [Effect.resumeApp, Effect.unpauseSim], some (PyErr.extFailure "unpause_sim"), false⟩
    else ⟨r, [Effect.resumeApp, Effect.unpauseSim], none, false⟩
  else ⟨r, [], some PyErr.attributeError, false⟩

/-- Action of `terminate_application` (manager.py lines 439-449).  The
whole body is guarded by the handle being populated and a single
try/except wraps all sub-steps (terminate tree, clear handle, pause sim,
reset sim): the first failing sub-step abandons the remaining ones, and
the caught exception is only logged, never propagated. -/
def on_terminate_application (x : Ext) (r : Res) (_d : MsgData) : ActOut :=
  if r.application_process then
    if x.stopAppFails then
      ⟨r, [Effect.stopApp], none, false⟩
    else if x.pauseSimFails then
      ⟨{ r with application_process := false }, [Effect.stopApp, Effect.pauseSim], none, false⟩
    else
      ⟨{ r with application_process := false }, [Effect.stopApp, Effect.pauseSim, Effect.resetSim], none, false⟩
  else ⟨r, [], none, false⟩

/-- Action of `terminate_visualization` (manager.py lines 451-456):
terminate the visualization launcher (AttributeError when the handle is
None, which cannot happen along the declared sources), then stop and clear
the GUI server if one is attached.  The launcher handle itself is not
cleared by the source. -/
def on_terminate_visualization (x : Ext) (r : Res) (_d : MsgData) : ActOut :=
  if r.visualization_launcher then
    if x.visTerminateFails then
      ⟨r, [Effect.visTerminate], some (PyErr.extFailure "visualization_launcher.terminate"), false⟩
    else if r.gui_server then
      ⟨{ r with gui_server := false }, [Effect.visTerminate, Effect.guiStop], none, false⟩
    else ⟨r, [Effect.visTerminate], none, false⟩
  else ⟨r, [], some PyErr.attributeError, false⟩

/-- Action of `terminate_universe` (manager.py lines 458-460): terminate
the world launcher; the handle is not cleared by the source. -/
def on_terminate_universe (x : Ext) (r : Res) (_d : MsgData) : ActOut :=
  if r.world_launcher then
    if x.worldTerminateFails then
      ⟨r, [Effect.worldTerminate], some (PyErr.extFailure "world_launcher.terminate"), false⟩
    else ⟨r, [Effect.worldTerminate], none, false⟩
  else ⟨r, [], some PyErr.attributeError, false⟩

/-- Action of `disconnect` (manager.py lines 462-491): stop the consumer,
then for each populated handle in order (application process,
visualization launcher, world launcher) attempt its teardown, each step in
its own try/except that logs and continues; finally `os.execl` replaces
the process image (the fresh process starts at `idle` with no handles).
Only a successful `stop_process_and_children` clears the application
handle; the launcher teardown steps do not clear theirs. -/
def on_disconnect (x : Ext) (r : Res) (_d : MsgData) : ActOut :=
  let appStep : Res × List Effect :=
    if r.application_process then
      if x.stopAppFails then (r, [Effect.stopApp])
      else ({ r with application_process := false }, [Effect.stopApp])
    else (r, [])
  let visStep : List Effect := if r.visualization_launcher then [Effect.visTerminate] else []
  let worldStep : List Effect := if r.world_launcher then [Effect.worldTerminate] else []
  ⟨appStep.1,
   Effect.consumerStop :: (appStep.2 ++ visStep ++ worldStep ++ [Effect.execRestart]),
   none, true⟩

/-- Action of `style_check` (manager.py lines 294-339): a payload of type
bt-studio returns immediately; otherwise the code is made backwards
compatible and linted, an empty lint report is replaced by the text
"No errors found", the resulting text is written to every attached
operator console, and then `Exception(errors)` is raised unconditionally
-- on lint success as well as on lint failure. -/
def on_style_check_application (x : Ext) (r : Res) (d : MsgData) : ActOut :=
  if d.isBtStudio then ⟨r, [], none, false⟩
  else
    let errors := if x.lintStyleResult = "" then "No errors found" else x.lintStyleResult
    ⟨r, x.consoles.map (fun p => Effect.consoleWrite p (errors ++ "\n\n")),
     some (PyErr.exception errors), false⟩

/-- Dispatch a trigger to its `before` action. -/
def runAction : Trigger → Ext → Res → MsgData → ActOut
  | Trigger.connect => on_connect
  | Trigger.launch_world => on_launch_world
  | Trigger.prepare_visualization => on_prepare_visualization
  | Trigger.run_application => on_run_application
  | Trigger.pause => on_pause
  | Trigger.resume => on_resume
  | Trigger.terminate_application => on_terminate_application
  | Trigger.terminate_visualization => on_terminate_visualization
  | Trigger.terminate_universe => on_terminate_universe
  | Trigger.disconnect => on_disconnect
  | Trigger.style_check => on_style_check_application

/-- Outcome of firing a trigger: the transition committed, the process
image was replaced by `os.execl` inside `on_disconnect`, or an exception
propagated to the caller. -/
inductive Outcome
  | ok
  | restarted
  | err (e : PyErr)
deriving DecidableEq, Repr

/-- Result of firing a trigger: lifecycle state, resources, emitted
effects, and the outcome. -/
structure FireOut where
  state : State
  res : Res
  effects : List Effect
  outcome : Outcome
deriving DecidableEq, Repr

/-- First transition of the table whose trigger matches and whose source
admits the current state (the `transitions` library expands a `"*"` source
over all states at registration; matching against the wildcard directly is
equivalent). -/
def findTransition (t : Trigger) (s : State) : Option TransDef :=
  transitions.find? (fun tr => decide (tr.trigger = t) && srcMatches tr.src s)

/-- Fire a trigger on the machine as configured in `Manager.__init__`
(manager.py lines 125-134): no admissible transition raises a MachineError
with everything untouched; otherwise the `before` action runs first and a
raise aborts the transition with the lifecycle state untouched; an action
ending in `os.execl` replaces the process image (fresh state `idle`, no
handles, no notification); otherwise the machine commits the destination
-- raising the `Machine.set_state` ValueError when the destination is the
unregistered name `"*"` -- and emits the state-changed notification via
`after_state_change`. -/
def fire (x : Ext) (s : State) (r : Res) (t : Trigger) (d : MsgData) : FireOut :=
  match findTransition t s with
  | none => ⟨s, r, [], Outcome.err (PyErr.machineError t s)⟩
  | some tr =>
      let a := runAction t x r d
      match a.err with
      | some e => ⟨s, a.res, a.effects, Outcome.err e⟩
      | none =>
          if a.execs then ⟨State.idle, initRes, a.effects, Outcome.restarted⟩
          else
            match tr.dest with
            | Dest.star => ⟨s, a.res, a.effects, Outcome.err PyErr.valueErrorStar⟩
            | Dest.to dst => ⟨dst, a.res, a.effects ++ [Effect.stateChanged dst], Outcome.ok⟩

/-- An inbound command: the special `gui` passthrough or a trigger name. -/
inductive Cmd
  | gui
  | trig (t : Trigger)
deriving DecidableEq, Repr

/-- An inbound message from the transport. -/
structure Msg where
  id : String
  command : Cmd
  data : MsgData
deriving DecidableEq, Repr

/-- The `Manager.process_message` step (manager.py lines 493-500): a `gui`
command is forwarded to the GUI server and returns without touching the
machine -- when no GUI server exists, `None.send` raises an
AttributeError; any other command fires its trigger and, on success, sends
the state-changed acknowledgment for the message id. -/
def process_message (x : Ext) (s : State) (r : Res) (msg : Msg) : FireOut :=
  match msg.command with
  | Cmd.gui =>
      if r.gui_server then ⟨s, r, [Effect.guiSend], Outcome.ok⟩
      else ⟨s, r, [], Outcome.err PyErr.attributeError⟩
  | Cmd.trig t =>
      let f := fire x s r t msg.data
      match f.outcome with
      | Outcome.ok => ⟨f.state, f.res, f.effects ++ [Effect.sendResponse msg.id f.state], Outcome.ok⟩
      | o => ⟨f.state, f.res, f.effects, o⟩

/-- One iteration of the `Manager.start` dispatcher loop over a dequeued
message (manager.py lines 590-606): an exception from `process_message` is
wrapped in a consumer-message exception carrying the message id and sent
back over the transport. -/
def dispatchStep (x : Ext) (s : State) (r : Res) (msg : Msg) : FireOut :=
  let p := process_message x s r msg
  match p.outcome with
  | Outcome.err e => ⟨p.state, p.res, p.effects ++ [Effect.sendError msg.id (errTxt e)], Outcome.err e⟩
  | o => ⟨p.state, p.res, p.effects, o⟩

/-- External-collaborator outcomes in which every call succeeds, the
linter reports no errors, and one operator console is attached. -/
def extDefault : Ext :=
  ⟨true, "", "", ["/dev/pts/1"], false, false, false, false, false, false, false, false, false, false, false⟩

/-- A payload with inline code and no bt-studio marker. -/
def dataDefault : MsgData := ⟨false, "", ""⟩

/-- A payload marked as a bt-studio application. -/
def dataBt : MsgData := ⟨true, "", ""⟩

/-- Collaborator outcomes where the linter rejects the inline code. -/
def extLintFail : Ext := { extDefault with lintResult := "bad code" }

/-- Collaborator outcomes where terminating the application process tree
raises. -/
def extStopFail : Ext := { extDefault with stopAppFails := true }

/-- Collaborator outcomes where the simulation pause RPC raises. -/
def extPauseSimFail : Ext := { extDefault with pauseSimFails := true }

/-- Collaborator outcomes where configuration validation raises ValueError. -/
def extNoValidate : Ext := { extDefault with validateOk := false }

/-- Collaborator outcomes where the style lint reports a failure. -/
def extStyleLintFail : Ext := { extDefault with lintStyleResult := "style err" }

/-- Resources with only the application process handle populated. -/
def resApp : Res := ⟨false, false, true, false⟩

/-- Resources with every handle populated. -/
def resAll : Res := ⟨true, true, true, true⟩

/-- A small inline program with a top-level infinite loop, used as a
concrete instrumentation input. -/
def codeWitness : List Char := "while True:\n    f()\n".data

/-- A small inline program with no infinite-loop header. -/
def codeNoLoop : List Char := "x = 1\n".data

/-! Helper lemmas about the machine dispatch. -/

/-- A trigger with a non-matching source set has no admissible transition. -/
theorem findTransition_eq_none (t : Trigger) (s : State)
    (h : srcMatches (declaredSrc t) s = false) : findTransition t s = none := by
  revert h
  revert t s
  decide

/-- A trigger with a matching source set finds its (unique) table entry. -/
theorem findTransition_eq_some (t : Trigger) (s : State)
    (h : srcMatches (declaredSrc t) s = true) :
    findTransition t s = some ⟨t, declaredSrc t, destD t⟩ := by
  revert h
  revert t s
  decide

/-- Only `on_disconnect` ends in `os.execl`. -/
theorem runAction_execs (t : Trigger) (x : Ext) (r : Res) (d : MsgData) :
    (runAction t x r d).execs = decide (t = Trigger.disconnect) := by
  cases t <;>
    simp only [runAction, on_connect, on_launch_world, on_prepare_visualization,
      on_run_application, run_bt_studio_application, on_pause, on_resume,
      on_terminate_application, on_terminate_visualization, on_terminate_universe,
      on_disconnect, on_style_check_application] <;>
    (repeat' split) <;> rfl

/-- No action emits a state-changed notification itself; only the machine
commit does. -/
theorem runAction_no_stateChanged (t : Trigger) (x : Ext) (r : Res) (d : MsgData)
    (s1 : State) : Effect.stateChanged s1 ∉ (runAction t x r d).effects := by
  cases t <;>
    simp only [runAction, on_connect, on_launch_world, on_prepare_visualization,
      on_run_application, run_bt_studio_application, on_pause, on_resume,
      on_terminate_application, on_terminate_visualization, on_terminate_universe,
      on_disconnect, on_style_check_application] <;>
    (repeat' split) <;>
    simp [List.mem_map]

/-- Firing with no admissible transition raises a MachineError and
changes nothing. -/
theorem fire_of_none (x : Ext) (s : State) (r : Res) (t : Trigger) (d : MsgData)
    (h : findTransition t s = none) :
    fire x s r t d = ⟨s, r, [], Outcome.err (PyErr.machineError t s)⟩ := by
  simp [fire, h]

/-- Firing whose action raises aborts with the lifecycle state untouched. -/
theorem fire_of_err (x : Ext) (s : State) (r : Res) (t : Trigger) (d : MsgData)
    (tr : TransDef) (e : PyErr) (h : findTransition t s = some tr)
    (ha : (runAction t x r d).err = some e) :
    fire x s r t d
      = ⟨s, (runAction t x r d).res, (runAction t x r d).effects, Outcome.err e⟩ := by
  simp [fire, h, ha]

/-- Firing whose action succeeds without `os.execl` commits a registered
destination and appends the state-changed notification. -/
theorem fire_of_ok (x : Ext) (s : State) (r : Res) (t : Trigger) (d : MsgData)
    (tr : TransDef) (dst : State) (h : findTransition t s = some tr)
    (ha : (runAction t x r d).err = none) (hx : (runAction t x r d).execs = false)
    (hd : tr.dest = Dest.to dst) :
    fire x s r t d
      = ⟨dst, (runAction t x r d).res,
          (runAction t x r d).effects ++ [Effect.stateChanged dst], Outcome.ok⟩ := by
  simp [fire, h, ha, hx, hd]

/-- Firing whose action succeeds but whose table destination is the
unregistered name `"*"` raises the `set_state` ValueError with the
lifecycle state untouched. -/
theorem fire_of_star (x : Ext) (s : State) (r : Res) (t : Trigger) (d : MsgData)
    (tr : TransDef) (h : findTransition t s = some tr)
    (ha : (runAction t x r d).err = none) (hx : (runAction t x r d).execs = false)
    (hd : tr.dest = Dest.star) :
    fire x s r t d
      = ⟨s, (runAction t x r d).res, (runAction t x r d).effects,
          Outcome.err PyErr.valueErrorStar⟩ := by
  simp [fire, h, ha, hx, hd]

/-- Firing whose action reaches `os.execl` restarts the orchestrator into
the initial configuration. -/
theorem fire_of_execs (x : Ext) (s : State) (r : Res) (t : Trigger) (d : MsgData)
    (tr : TransDef) (h : findTransition t s = some tr)
    (ha : (runAction t x r d).err = none) (hx : (runAction t x r d).execs = true) :
    fire x s r t d
      = ⟨State.idle, initRes, (runAction t x r d).effects, Outcome.restarted⟩ := by
  simp [fire, h, ha, hx]

/-- C2: for every transition of the lifecycle machine the action runs
before the destination state is committed; an action raising an error
aborts the transition atomically -- the lifecycle state is unchanged, no
state-changed notification is emitted, and the error propagates to the
dispatcher loop, which reports it back with the command id; after every
successful state change the state-changed notification carrying the new
state is emitted (after all action effects). -/
theorem c2_action_before_commit (x : Ext) (s : State) (r : Res) (t : Trigger)
    (d : MsgData) (i : String) :
    (∀ e : PyErr, (fire x s r t d).outcome = Outcome.err e →
      (fire x s r t d).state = s ∧
      (∀ s1 : State, Effect.stateChanged s1 ∉ (fire x s r t d).effects) ∧
      (dispatchStep x s r ⟨i, Cmd.trig t, d⟩).effects
        = (fire x s r t d).effects ++ [Effect.sendError i (errTxt e)]) ∧
    ((fire x s r t d).outcome = Outcome.ok →
      (fire x s r t d).effects
        = (runAction t x r d).effects ++ [Effect.stateChanged (fire x s r t d).state]) := by
  have hnc := runAction_no_stateChanged t x r d
  rcases h : findTransition t s with _ | tr
  · have hf := fire_of_none x s r t d h
    rw [hf]
    refine ⟨?_, ?_⟩
    · intro e he
      simp only at he
      obtain rfl : PyErr.machineError t s = e := by simpa using he
      exact ⟨rfl, by simp, by simp [dispatchStep, process_message, hf]⟩
    · intro hok
      simp at hok
  · rcases ha : (runAction t x r d).err with _ | e1
    · cases hx : (runAction t x r d).execs
      · rcases hd : tr.dest with dst | _
        · have hf := fire_of_ok x s r t d tr dst h ha hx hd
          rw [hf]
          refine ⟨?_, ?_⟩
          · intro e he
            simp at he
          · intro _
            simp
        · have hf := fire_of_star x s r t d tr h ha hx hd
          rw [hf]
          refine ⟨?_, ?_⟩
          · intro e he
            obtain rfl : PyErr.valueErrorStar = e := by simpa using he
            exact ⟨rfl, fun s1 => hnc s1, by simp [dispatchStep, process_message, hf]⟩
          · intro hok
            simp at hok
      · have hf := fire_of_execs x s r t d tr h ha hx
        rw [hf]
        refine ⟨?_, ?_⟩
        · intro e he
          simp at he
        · intro hok
          simp at hok
    · have hf := fire_of_err x s r t d tr e1 h ha
      rw [hf]
      refine ⟨?_, ?_⟩
      · intro e he
        obtain rfl : e1 = e := by simpa using he
        exact ⟨rfl, fun s1 => hnc s1, by simp [dispatchStep, process_message, hf]⟩
      · intro hok
        simp at hok

/-- C2 witness: from `idle`, firing `launch_world` (whose source set does
not contain `idle`) errors with the state unchanged, no state-changed
notification, and a correlated error reply; firing `connect` succeeds and
emits its action effect followed by `state-changed(connected)`. -/
theorem c2_action_before_commit_witness :
    ((fire extDefault State.idle initRes Trigger.launch_world dataDefault).state = State.idle ∧
      (∀ s1 : State, Effect.stateChanged s1
        ∉ (fire extDefault State.idle initRes Trigger.launch_world dataDefault).effects) ∧
      (dispatchStep extDefault State.idle initRes ⟨"1", Cmd.trig Trigger.launch_world, dataDefault⟩).effects
        = (fire extDefault State.idle initRes Trigger.launch_world dataDefault).effects
            ++ [Effect.sendError "1" (errTxt (PyErr.machineError Trigger.launch_world State.idle))]) ∧
    ((fire extDefault State.idle initRes Trigger.connect dataDefault).effects
      = (runAction Trigger.connect extDefault initRes dataDefault).effects
          ++ [Effect.stateChanged (fire extDefault State.idle initRes Trigger.connect dataDefault).state]) :=
  ⟨(c2_action_before_commit extDefault State.idle initRes Trigger.launch_world dataDefault "1").1
      (PyErr.machineError Trigger.launch_world State.idle) (by decide),
   (c2_action_before_commit extDefault State.idle initRes Trigger.connect dataDefault "1").2
      (by decide)⟩

/-- C3: firing `disconnect` from any state ends in `idle`, and its action
attempts the teardown of each of the three resource kinds -- exactly one
teardown call per populated handle, none for an absent handle -- plus one
transport stop, with the counts independent of which teardown calls fail
(each step has its own try/except), for every population pattern. -/
theorem c3_disconnect_teardown (x : Ext) (s : State) (r : Res) (d : MsgData) :
    (fire x s r Trigger.disconnect d).state = State.idle ∧
    (fire x s r Trigger.disconnect d).effects.count Effect.consumerStop = 1 ∧
    (fire x s r Trigger.disconnect d).effects.count Effect.stopApp
      = (if r.application_process then 1 else 0) ∧
    (fire x s r Trigger.disconnect d).effects.count Effect.visTerminate
      = (if r.visualization_launcher then 1 else 0) ∧
    (fire x s r Trigger.disconnect d).effects.count Effect.worldTerminate
      = (if r.world_launcher then 1 else 0) := by
  have hf := fire_of_execs x s r Trigger.disconnect d _
    (findTransition_eq_some Trigger.disconnect s rfl) rfl rfl
  rw [hf]
  obtain ⟨w, v, a, g⟩ := r
  cases w <;> cases v <;> cases a <;> cases g <;> cases hsf : x.stopAppFails <;>
    simp [runAction, on_disconnect, hsf]

/-- C4: when the `launch_world` configuration payload fails validation the
transition aborts with an error (the source logs the ValueError and then
trips over the unbound local `cfg`), no world launcher is constructed or
run, the resources are untouched and the state remains `connected`. -/
theorem c4_launch_world_invalid_aborts (x : Ext) (r : Res) (d : MsgData)
    (h : x.validateOk = false) :
    fire x State.connected r Trigger.launch_world d
      = ⟨State.connected, r, [], Outcome.err PyErr.unboundLocalError⟩ := by
  have ha : (runAction Trigger.launch_world x r d).err = some PyErr.unboundLocalError := by
    simp [runAction, on_launch_world, h]
  have hf := fire_of_err x State.connected r Trigger.launch_world d _
    PyErr.unboundLocalError (findTransition_eq_some Trigger.launch_world State.connected rfl) ha
  rw [hf]
  simp [runAction, on_launch_world, h]

/-- C4 witness: concrete invalid-configuration launch from `connected`. -/
theorem c4_launch_world_invalid_aborts_witness :
    extNoValidate.validateOk = false ∧
    fire extNoValidate State.connected initRes Trigger.launch_world dataDefault
      = ⟨State.connected, initRes, [], Outcome.err PyErr.unboundLocalError⟩ :=
  ⟨rfl, c4_launch_world_invalid_aborts extNoValidate initRes dataDefault rfl⟩

/-- C10: a `gui` command never touches the lifecycle state or the
resources and never fires a machine trigger (its effects are at most the
forward itself); while the GUI server reference is absent it raises an
AttributeError -- reported back with the command id by the dispatcher --
instead of silently dropping the forward, and with a GUI server attached
it forwards the payload. -/
theorem c10_gui_requires_server (x : Ext) (s : State) (r : Res) (d : MsgData)
    (i : String) :
    (process_message x s r ⟨i, Cmd.gui, d⟩).state = s ∧
    (process_message x s r ⟨i, Cmd.gui, d⟩).res = r ∧
    (∀ s1 : State, Effect.stateChanged s1 ∉ (process_message x s r ⟨i, Cmd.gui, d⟩).effects) ∧
    (r.gui_server = false →
      (process_message x s r ⟨i, Cmd.gui, d⟩).outcome = Outcome.err PyErr.attributeError ∧
      (dispatchStep x s r ⟨i, Cmd.gui, d⟩).effects
        = [Effect.sendError i (errTxt PyErr.attributeError)]) ∧
    (r.gui_server = true →
      (process_message x s r ⟨i, Cmd.gui, d⟩).effects = [Effect.guiSend] ∧
      (process_message x s r ⟨i, Cmd.gui, d⟩).outcome = Outcome.ok) := by
  cases hg : r.gui_server <;>
    simp [process_message, dispatchStep, hg]

/-- C10 witness: a `gui` command in the initial configuration (no GUI
server) raises and is answered with a correlated error. -/
theorem c10_gui_requires_server_witness :
    initRes.gui_server = false ∧
    (process_message extDefault State.idle initRes ⟨"7", Cmd.gui, dataDefault⟩).outcome
      = Outcome.err PyErr.attributeError ∧
    (dispatchStep extDefault State.idle initRes ⟨"7", Cmd.gui, dataDefault⟩).effects
      = [Effect.sendError "7" (errTxt PyErr.attributeError)] :=
  ⟨rfl,
   ((c10_gui_requires_server extDefault State.idle initRes dataDefault "7").2.2.2.1 rfl).1,
   ((c10_gui_requires_server extDefault State.idle initRes dataDefault "7").2.2.2.1 rfl).2⟩

/-- Destination of the table entry of every ordinary trigger is its declared
destination state. -/
theorem destD_eq_to (t : Trigger) (ht : t ≠ Trigger.style_check) :
    destD t = Dest.to (destOf t) := by
  cases t <;> first | rfl | exact absurd rfl ht

/-- The style-check action never touches the resource handles. -/
theorem on_style_check_application_res (x : Ext) (r : Res) (d : MsgData) :
    (on_style_check_application x r d).res = r := by
  unfold on_style_check_application
  split <;> rfl

/-- C1 counterexample: the claim predicts that `style_check` (declared
source wildcard) succeeds from `idle` and commits its declared
destination, but even on a payload whose action completes without raising
(a bt-studio payload returns early), firing `style_check` reports an error
-- its table destination `"*"` is not a registered state -- and the state
stays `idle`. -/
theorem c1_claim_counterexample :
    srcMatches (declaredSrc Trigger.style_check) State.idle = true ∧
    (runAction Trigger.style_check extDefault initRes dataBt).err = none ∧
    (fire extDefault State.idle initRes Trigger.style_check dataBt).outcome
      = Outcome.err PyErr.valueErrorStar ∧
    (fire extDefault State.idle initRes Trigger.style_check dataBt).state = State.idle := by
  decide

/-- C1 (amended): for the ten ordinary triggers, firing from a state
outside the declared source set leaves everything unchanged and reports a
MachineError; from a state inside the source set the trigger succeeds
whenever its action completes without raising, ending in the declared
destination, and aborts with the error of the action (state unchanged) when the
action raises.  `style_check` never succeeds: from every state it leaves
the state and resources unchanged and reports an error. -/
theorem c1_trigger_guard (x : Ext) (s : State) (r : Res) (d : MsgData) :
    (∀ t : Trigger, srcMatches (declaredSrc t) s = false →
      fire x s r t d = ⟨s, r, [], Outcome.err (PyErr.machineError t s)⟩) ∧
    (∀ t : Trigger, t ≠ Trigger.style_check → srcMatches (declaredSrc t) s = true →
      (runAction t x r d).err = none →
      (fire x s r t d).state = destOf t ∧
      ((fire x s r t d).outcome = Outcome.ok ∨ (fire x s r t d).outcome = Outcome.restarted)) ∧
    (∀ (t : Trigger) (e : PyErr), srcMatches (declaredSrc t) s = true →
      (runAction t x r d).err = some e →
      (fire x s r t d).outcome = Outcome.err e ∧ (fire x s r t d).state = s) ∧
    ((fire x s r Trigger.style_check d).state = s ∧
      (fire x s r Trigger.style_check d).res = r ∧
      ∃ e : PyErr, (fire x s r Trigger.style_check d).outcome = Outcome.err e) := by
  refine ⟨?_, ?_, ?_, ?_⟩
  · intro t hsrc
    exact fire_of_none x s r t d (findTransition_eq_none t s hsrc)
  · intro t ht hsrc ha
    have h := findTransition_eq_some t s hsrc
    cases hx : (runAction t x r d).execs
    · have hd : (⟨t, declaredSrc t, destD t⟩ : TransDef).dest = Dest.to (destOf t) := by
        simpa using destD_eq_to t ht
      rw [fire_of_ok x s r t d _ (destOf t) h ha hx hd]
      exact ⟨rfl, Or.inl rfl⟩
    · have hdisc : t = Trigger.disconnect := by
        have := runAction_execs t x r d
        rw [hx] at this
        simpa using this.symm
      rw [fire_of_execs x s r t d _ h ha hx]
      subst hdisc
      exact ⟨rfl, Or.inr rfl⟩
  · intro t e hsrc ha
    rw [fire_of_err x s r t d _ e (findTransition_eq_some t s hsrc) ha]
    exact ⟨rfl, rfl⟩
  · have h := findTransition_eq_some Trigger.style_check s rfl
    rcases ha : (runAction Trigger.style_check x r d).err with _ | e1
    · have hx : (runAction Trigger.style_check x r d).execs = false := by
        have := runAction_execs Trigger.style_check x r d
        simpa using this
      have hd : (⟨Trigger.style_check, declaredSrc Trigger.style_check,
          destD Trigger.style_check⟩ : TransDef).dest = Dest.star := rfl
      rw [fire_of_star x s r Trigger.style_check d _ h ha hx hd]
      exact ⟨rfl, on_style_check_application_res x r d, PyErr.valueErrorStar, rfl⟩
    · rw [fire_of_err x s r Trigger.style_check d _ e1 h ha]
      exact ⟨rfl, on_style_check_application_res x r d, e1, rfl⟩

/-- C1 witness: `connect` from `connected` is rejected with everything
unchanged; `connect` from `idle` (action succeeds) ends in `connected`;
`pause` from `application_running` with no application process has a
raising action and aborts with the state unchanged. -/
theorem c1_trigger_guard_witness :
    (fire extDefault State.connected initRes Trigger.connect dataDefault
      = ⟨State.connected, initRes, [],
          Outcome.err (PyErr.machineError Trigger.connect State.connected)⟩) ∧
    ((fire extDefault State.idle initRes Trigger.connect dataDefault).state
        = destOf Trigger.connect ∧
      ((fire extDefault State.idle initRes Trigger.connect dataDefault).outcome = Outcome.ok ∨
        (fire extDefault State.idle initRes Trigger.connect dataDefault).outcome
          = Outcome.restarted)) ∧
    ((fire extDefault State.application_running initRes Trigger.pause dataDefault).outcome
        = Outcome.err PyErr.attributeError ∧
      (fire extDefault State.application_running initRes Trigger.pause dataDefault).state
        = State.application_running) :=
  ⟨(c1_trigger_guard extDefault State.connected initRes dataDefault).1 Trigger.connect
      (by decide),
   (c1_trigger_guard extDefault State.idle initRes dataDefault).2.1 Trigger.connect
      (by decide) (by decide) rfl,
   (c1_trigger_guard extDefault State.application_running initRes dataDefault).2.2.1
      Trigger.pause PyErr.attributeError (by decide) rfl⟩

/-- C9 counterexample: with a lint run that reports no failure (empty
report) the style-check action still raises -- `Exception("No errors
found")` -- so `style_check` does not raise exactly when lint reports a
failure. -/
theorem c9_claim_counterexample :
    extDefault.lintStyleResult = "" ∧
    (fire extDefault State.idle initRes Trigger.style_check dataDefault).outcome
      = Outcome.err (PyErr.exception "No errors found") ∧
    (fire extDefault State.idle initRes Trigger.style_check dataDefault).state
      = State.idle := by
  decide

/-- C9 (amended): `style_check` is action-only and never succeeds: from
every state it leaves the state and every resource handle unchanged,
spawns nothing and emits no state-changed notification, and reports an
error -- for a non-bt-studio payload the unconditional
`Exception(errors)`, whose text is the lint failure report, or "No errors
found" when lint passes. -/
theorem c9_style_check_never_commits (x : Ext) (s : State) (r : Res) (d : MsgData) :
    (fire x s r Trigger.style_check d).state = s ∧
    (fire x s r Trigger.style_check d).res = r ∧
    (∃ e : PyErr, (fire x s r Trigger.style_check d).outcome = Outcome.err e) ∧
    Effect.spawnApp ∉ (fire x s r Trigger.style_check d).effects ∧
    (∀ s1 : State, Effect.stateChanged s1 ∉ (fire x s r Trigger.style_check d).effects) ∧
    (d.isBtStudio = false →
      (fire x s r Trigger.style_check d).outcome
        = Outcome.err (PyErr.exception
            (if x.lintStyleResult = "" then "No errors found" else x.lintStyleResult))) := by
  have h := findTransition_eq_some Trigger.style_check s rfl
  cases hbt : d.isBtStudio
  · have ha : (runAction Trigger.style_check x r d).err
        = some (PyErr.exception
            (if x.lintStyleResult = "" then "No errors found" else x.lintStyleResult)) := by
      simp [runAction, on_style_check_application, hbt]
    rw [fire_of_err x s r Trigger.style_check d _ _ h ha]
    refine ⟨rfl, on_style_check_application_res x r d, ⟨_, rfl⟩, ?_, ?_, fun _ => rfl⟩
    · simp [runAction, on_style_check_application, hbt, List.mem_map]
    · intro s1
      exact runAction_no_stateChanged Trigger.style_check x r d s1
  · have ha : (runAction Trigger.style_check x r d).err = none := by
      simp [runAction, on_style_check_application, hbt]
    have hx : (runAction Trigger.style_check x r d).execs = false := by
      have := runAction_execs Trigger.style_check x r d
      simpa using this
    rw [fire_of_star x s r Trigger.style_check d _ h ha hx rfl]
    refine ⟨rfl, on_style_check_application_res x r d, ⟨_, rfl⟩, ?_, ?_, ?_⟩
    · simp [runAction, on_style_check_application, hbt]
    · intro s1
      exact runAction_no_stateChanged Trigger.style_check x r d s1
    · intro hc
      simp at hc

/-- C9 witness: a failing style lint from `world_ready` raises with the
failure text and leaves the machine in `world_ready`. -/
theorem c9_style_check_never_commits_witness :
    (fire extStyleLintFail State.world_ready initRes Trigger.style_check dataDefault).outcome
      = Outcome.err (PyErr.exception "style err") ∧
    (fire extStyleLintFail State.world_ready initRes Trigger.style_check dataDefault).state
      = State.world_ready := by
  have h := c9_style_check_never_commits extStyleLintFail State.world_ready initRes dataDefault
  refine ⟨?_, h.1⟩
  have h6 := h.2.2.2.2.2 rfl
  simpa [extStyleLintFail, extDefault] using h6

/-- C8 counterexample: with the application handle populated and the
process-tree termination raising, the terminate-application action makes
no pause or reset attempt and the handle is not cleared -- a failing
sub-step does prevent the subsequent sub-steps. -/
theorem c8_claim_counterexample :
    resApp.application_process = true ∧
    extStopFail.stopAppFails = true ∧
    (fire extStopFail State.application_running resApp Trigger.terminate_application
        dataDefault).effects.count Effect.stopApp = 1 ∧
    (fire extStopFail State.application_running resApp Trigger.terminate_application
        dataDefault).effects.count Effect.pauseSim = 0 ∧
    (fire extStopFail State.application_running resApp Trigger.terminate_application
        dataDefault).effects.count Effect.resetSim = 0 ∧
    (fire extStopFail State.application_running resApp Trigger.terminate_application
        dataDefault).res.application_process = true := by
  decide

/-- C8 (amended): the terminate-application action runs only when the
application handle is populated and wraps all of its sub-steps (terminate
the process tree, clear the handle, pause the simulation, reset the
simulation) in a single try/except: the first failing sub-step is caught
and logged but abandons the remaining sub-steps, and the caught failure
never propagates, so the transition itself still commits from any of its
declared source states. -/
theorem c8_terminate_application_single_try (x : Ext) (s : State) (r : Res) (d : MsgData) :
    (on_terminate_application x r d).err = none ∧
    (r.application_process = false → on_terminate_application x r d = ⟨r, [], none, false⟩) ∧
    (r.application_process = true → x.stopAppFails = true →
      on_terminate_application x r d = ⟨r, [Effect.stopApp], none, false⟩) ∧
    (r.application_process = true → x.stopAppFails = false → x.pauseSimFails = true →
      on_terminate_application x r d
        = ⟨{ r with application_process := false },
            [Effect.stopApp, Effect.pauseSim], none, false⟩) ∧
    (r.application_process = true → x.stopAppFails = false → x.pauseSimFails = false →
      on_terminate_application x r d
        = ⟨{ r with application_process := false },
            [Effect.stopApp, Effect.pauseSim, Effect.resetSim], none, false⟩) ∧
    (srcMatches (declaredSrc Trigger.terminate_application) s = true →
      (fire x s r Trigger.terminate_application d).outcome = Outcome.ok) := by
  have herr : (on_terminate_application x r d).err = none := by
    unfold on_terminate_application
    repeat' split
    all_goals rfl
  refine ⟨herr, ?_, ?_, ?_, ?_, ?_⟩
  · intro h1
    simp [on_terminate_application, h1]
  · intro h1 h2
    simp [on_terminate_application, h1, h2]
  · intro h1 h2 h3
    simp [on_terminate_application, h1, h2, h3]
  · intro h1 h2 h3
    simp [on_terminate_application, h1, h2, h3]
  · intro hs
    have hx : (runAction Trigger.terminate_application x r d).execs = false := by
      have := runAction_execs Trigger.terminate_application x r d
      simpa using this
    rw [fire_of_ok x s r Trigger.terminate_application d _ State.visualization_ready
      (findTransition_eq_some Trigger.terminate_application s hs) herr hx rfl]

/-- C8 witness: from `paused` with the application handle populated, a
succeeding process-tree stop followed by a failing simulation-pause RPC
clears the handle, makes no reset attempt, and the transition still
commits. -/
theorem c8_terminate_application_single_try_witness :
    (on_terminate_application extPauseSimFail resApp dataDefault
      = ⟨{ resApp with application_process := false },
          [Effect.stopApp, Effect.pauseSim], none, false⟩) ∧
    (fire extPauseSimFail State.paused resApp Trigger.terminate_application
        dataDefault).outcome = Outcome.ok :=
  ⟨(c8_terminate_application_single_try extPauseSimFail State.paused resApp
      dataDefault).2.2.2.1 rfl rfl rfl,
   (c8_terminate_application_single_try extPauseSimFail State.paused resApp
      dataDefault).2.2.2.2.2 (by decide)⟩

/-- C5: a `run_application` command with inline code rejected by the
linter writes the failure text to every attached operator console, raises
`Exception(errors)` -- answered by the dispatcher with an error correlated
to the command id -- spawns no process, leaves the application handle and
all resources untouched and the lifecycle state unchanged. -/
theorem c5_run_application_lint_failure (x : Ext) (s : State) (r : Res) (d : MsgData)
    (i : String) (hs : srcMatches (declaredSrc Trigger.run_application) s = true)
    (hbt : d.isBtStudio = false) (hl : x.lintResult ≠ "") :
    (fire x s r Trigger.run_application d).outcome
      = Outcome.err (PyErr.exception x.lintResult) ∧
    (fire x s r Trigger.run_application d).state = s ∧
    (fire x s r Trigger.run_application d).res = r ∧
    (fire x s r Trigger.run_application d).effects
      = x.consoles.map (fun p => Effect.consoleWrite p (x.lintResult ++ "\n\n")) ∧
    Effect.spawnApp ∉ (fire x s r Trigger.run_application d).effects ∧
    (r.application_process = false →
      (fire x s r Trigger.run_application d).res.application_process = false) ∧
    (dispatchStep x s r ⟨i, Cmd.trig Trigger.run_application, d⟩).effects
      = x.consoles.map (fun p => Effect.consoleWrite p (x.lintResult ++ "\n\n"))
          ++ [Effect.sendError i x.lintResult] := by
  have ha : (runAction Trigger.run_application x r d).err
      = some (PyErr.exception x.lintResult) := by
    simp [runAction, on_run_application, hbt, hl]
  have hf := fire_of_err x s r Trigger.run_application d _ _
    (findTransition_eq_some Trigger.run_application s hs) ha
  rw [hf]
  have hres : (runAction Trigger.run_application x r d).res = r := by
    simp [runAction, on_run_application, hbt, hl]
  have heff : (runAction Trigger.run_application x r d).effects
      = x.consoles.map (fun p => Effect.consoleWrite p (x.lintResult ++ "\n\n")) := by
    simp [runAction, on_run_application, hbt, hl]
  refine ⟨rfl, rfl, hres, heff, ?_, ?_, ?_⟩
  · rw [heff]
    simp [List.mem_map]
  · intro h1
    rw [hres]
    exact h1
  · simp [dispatchStep, process_message, hf, heff, errTxt]

/-- C5 witness: a lint-rejected inline submission from
`visualization_ready` with one attached console. -/
theorem c5_run_application_lint_failure_witness :
    (fire extLintFail State.visualization_ready initRes Trigger.run_application
        dataDefault).outcome = Outcome.err (PyErr.exception "bad code") ∧
    (fire extLintFail State.visualization_ready initRes Trigger.run_application
        dataDefault).state = State.visualization_ready ∧
    (fire extLintFail State.visualization_ready initRes Trigger.run_application
        dataDefault).effects
      = [Effect.consoleWrite "/dev/pts/1" "bad code\n\n"] ∧
    (dispatchStep extLintFail State.visualization_ready initRes
        ⟨"42", Cmd.trig Trigger.run_application, dataDefault⟩).effects
      = [Effect.consoleWrite "/dev/pts/1" "bad code\n\n", Effect.sendError "42" "bad code"] := by
  have h := c5_run_application_lint_failure extLintFail State.visualization_ready initRes
    dataDefault "42" (by decide) rfl (by decide)
  exact ⟨h.1, h.2.1, by simpa [extLintFail, extDefault] using h.2.2.2.1,
    by simpa [extLintFail, extDefault] using h.2.2.2.2.2.2⟩

/-! Lemmas about the loop-header recognizer. -/

/-- Matching a token list never lengthens the remainder. -/
theorem matchToks_length_le (ts : List Tok) :
    ∀ s rem : List Char, matchToks ts s = some rem → rem.length ≤ s.length := by
  induction ts with
  | nil =>
    intro s rem h
    simp only [matchToks] at h
    cases h
    exact Nat.le_refl _
  | cons t ts ih =>
    intro s rem h
    cases t with
    | lit c =>
      cases s with
      | nil => simp [matchToks] at h
      | cons c1 s1 =>
        simp only [matchToks] at h
        by_cases hc : c1 = c
        · rw [if_pos hc] at h
          exact Nat.le_trans (ih s1 rem h) (Nat.le_succ _)
        · rw [if_neg hc] at h
          cases h
    | nonspace =>
      cases s with
      | nil => simp [matchToks] at h
      | cons c1 s1 =>
        simp only [matchToks] at h
        by_cases hc : c1 = ' '
        · rw [if_pos hc] at h
          cases h
        · rw [if_neg hc] at h
          exact Nat.le_trans (ih s1 rem h) (Nat.le_succ _)
    | ws =>
      simp only [matchToks] at h
      exact Nat.le_trans (ih _ rem h) (List.dropWhile_sublist _).length_le

/-- A token list starting with `[^ ]` and a literal pins down the first
two characters of any string it matches. -/
theorem matchToks_nonspace_lit (c : Char) (ts : List Tok) (s rem : List Char)
    (h : matchToks (Tok.nonspace :: Tok.lit c :: ts) s = some rem) :
    ∃ c0 s1, s = c0 :: c :: s1 ∧ rem.length ≤ s1.length := by
  cases s with
  | nil => simp [matchToks] at h
  | cons c0 s0 =>
    simp only [matchToks] at h
    by_cases h0 : c0 = ' '
    · rw [if_pos h0] at h
      cases h
    · rw [if_neg h0] at h
      cases s0 with
      | nil => simp [matchToks] at h
      | cons c1 s1 =>
        simp only [matchToks] at h
        by_cases h1 : c1 = c
        · rw [if_pos h1] at h
          exact ⟨c0, s1, by rw [h1], matchToks_length_le ts s1 rem h⟩
        · rw [if_neg h1] at h
          cases h

/-- Every successful alternation match starts with some character followed
by `'w'`, consumes at least two characters and at most the whole string. -/
theorem matchLen_spec (s : List Char) (n : Nat) (h : matchLen s = some n) :
    ∃ c0 s1, s = c0 :: 'w' :: s1 ∧ 2 ≤ n ∧ n ≤ s.length := by
  unfold matchLen at h
  obtain ⟨b, hb, hfb⟩ := List.exists_of_findSome?_eq_some h
  obtain ⟨rem, hrem, hn⟩ := Option.map_eq_some'.mp hfb
  have hshape : ∃ ts : List Tok, b = Tok.nonspace :: Tok.lit 'w' :: ts := by
    simp only [loopBranches, List.mem_cons, List.not_mem_nil, or_false] at hb
    rcases hb with rfl | rfl | rfl | rfl
    · exact ⟨_, rfl⟩
    · exact ⟨_, rfl⟩
    · exact ⟨_, rfl⟩
    · exact ⟨_, rfl⟩
  obtain ⟨ts, rfl⟩ := hshape
  obtain ⟨c0, s1, hs, hlen⟩ := matchToks_nonspace_lit 'w' ts s rem hrem
  have hslen : s.length = s1.length + 2 := by
    rw [hs]
    simp
  refine ⟨c0, s1, hs, ?_, ?_⟩ <;> omega

/-- Characterization of a successful leftmost search: the span starts at
some offset `k` from the search origin, matches there, and fits inside
the string. -/
theorem searchFrom_spec (s : List Char) :
    ∀ i p q : Nat, searchFrom s i = some (p, q) →
      ∃ k n : Nat, p = i + k ∧ q = p + n ∧ matchLen (s.drop k) = some n ∧
        k + n ≤ s.length := by
  induction s with
  | nil =>
    intro i p q h
    cases h
  | cons c rest ih =>
    intro i p q h
    simp only [searchFrom] at h
    cases hm : matchLen (c :: rest) with
    | some n =>
      rw [hm] at h
      simp only [Option.some.injEq, Prod.mk.injEq] at h
      obtain ⟨rfl, rfl⟩ := h
      obtain ⟨c0, s1, _, _, hle⟩ := matchLen_spec _ _ hm
      exact ⟨0, n, by omega, rfl, by simpa using hm, by simpa using hle⟩
    | none =>
      rw [hm] at h
      obtain ⟨k, n, hp, hq, hml, hkn⟩ := ih (i + 1) p q h
      refine ⟨k + 1, n, by omega, hq, by simpa using hml, ?_⟩
      simp only [List.length_cons]
      omega

/-- The imports fragment contains no `'w'`, so no loop-header match can
begin inside it. -/
theorem w_not_in_importsFrag : 'w' ∉ importsFrag := by
  decide

/-- C6: `add_frequency_control` is a pure function of its input text, and
for every input on which the loop-header search (run, as in the source, on
the imports fragment followed by the input) succeeds, the output is
exactly the input split at the end of the first matched loop header, with
the fixed imports fragment prepended, the single timestamp-capture
fragment inserted at the match end, and the single timing/sleep fragment
appended -- the rest byte-identical and in the original order. -/
theorem c6_instrumentation_shape (code : List Char) (p e : Nat)
    (h : searchFrom (importsFrag ++ code) 0 = some (p, e)) :
    (∀ other : List Char, other = code →
      add_frequency_control other = add_frequency_control code) ∧
    ∃ c1 c2 : List Char, code = c1 ++ c2 ∧ importsFrag.length + c1.length = e ∧
      add_frequency_control code
        = Except.ok (importsFrag ++ c1 ++ preFrag ++ c2 ++ postFrag) := by
  refine ⟨fun other ho => by rw [ho], ?_⟩
  obtain ⟨k, n, hp, hq, hml, hkn⟩ := searchFrom_spec _ 0 p e h
  obtain ⟨c0, s1, hds, hn2, _⟩ := matchLen_spec _ _ hml
  have hw : ¬ (k + 1 < importsFrag.length) := by
    intro hlt
    have h1 : (importsFrag ++ code)[k + 1]? = some 'w' := by
      have h2 : ((importsFrag ++ code).drop k)[1]? = some 'w' := by
        rw [hds]
        simp
      rw [List.getElem?_drop] at h2
      exact h2
    rw [List.getElem?_append_left hlt] at h1
    have hmem : 'w' ∈ importsFrag := by
      obtain ⟨hlt2, he2⟩ := List.getElem?_eq_some.mp h1
      exact he2 ▸ List.getElem_mem hlt2
    exact w_not_in_importsFrag hmem
  have hlen_app : (importsFrag ++ code).length = importsFrag.length + code.length :=
    List.length_append _ _
  have he_ge : importsFrag.length ≤ e := by omega
  have he_le : e ≤ importsFrag.length + code.length := by omega
  refine ⟨code.take (e - importsFrag.length), code.drop (e - importsFrag.length),
    (List.take_append_drop _ _).symm, ?_, ?_⟩
  · have ht : (code.take (e - importsFrag.length)).length
        = min (e - importsFrag.length) code.length := List.length_take _ _
    omega
  · simp only [add_frequency_control, h]
    rw [List.take_append_eq_append_take, List.drop_append_eq_append_drop,
      List.take_of_length_le he_ge, List.drop_of_length_le he_ge]
    simp [List.append_assoc]

/-- C6 witness: concrete instrumentation of a program whose first line is
a `while True:` loop header. -/
theorem c6_instrumentation_shape_witness :
    searchFrom (importsFrag ++ codeWitness) 0 = some (59, 71) ∧
    (∃ c1 c2 : List Char, codeWitness = c1 ++ c2 ∧
      importsFrag.length + c1.length = 71 ∧
      add_frequency_control codeWitness
        = Except.ok (importsFrag ++ c1 ++ preFrag ++ c2 ++ postFrag)) :=
  ⟨by decide, (c6_instrumentation_shape codeWitness 59 71 (by decide)).2⟩

/-- C7: on an input with no recognized infinite-loop header the search
fails and `add_frequency_control` raises the AttributeError produced by
calling `.end()` on `None` -- an unchecked fault, not the explicit typed
error the specification requires for this edge case. -/
theorem c7_missing_loop_header_fault :
    searchFrom (importsFrag ++ codeNoLoop) 0 = none ∧
    add_frequency_control codeNoLoop = Except.error PyErr.attributeError := by
  constructor
  · decide
  · rfl

end RAM
